import Mathlib

/-!
Verification of the MCPC protocol helper (`src/mcpc/helper.py`, class `MCPCHelper`).

The helper's mutable state is the task registry
`self.background_tasks : Dict[str, Dict[str, Any]]`.  We embed the registry as
an association list with Python-dict semantics (unique keys in every state the
class itself produces; assignment replaces the binding in place, deletion
filters it out).  Each method of the class becomes a function from the registry
(plus its arguments) to the new registry and the returned value; methods whose
only other effects are logging drop the logging.

Thread handles are abstracted to `Nat` identities together with a liveness
oracle `alive : Nat → Bool` standing for `Thread.is_alive()` at the moment of a
call.  The records stored by `start_task` carry the three keys the source
writes (`thread`, `start_time`, `status`); the key `is_running`, which
`check_task` writes into the stored dict, is modelled as an `Option Bool` field
that is `none` while the key is absent.  The `thread` field is an `Option Nat`
because `task_info.get("thread")` in the source can in principle yield `None`;
the non-null-handle invariant is then a provable statement.
-/

namespace MCPC

/-- One task record: the dict stored under a task id in `background_tasks`.
`thread` is the execution handle (`None` never occurs in reachable states),
`start_time` the timestamp written at spawn, `status` the advisory status
string, and `is_running` the optional key that `check_task` writes. -/
structure TaskRecord where
  thread : Option Nat
  start_time : Nat
  status : String
  is_running : Option Bool
deriving Repr, DecidableEq

/-- The registry `background_tasks`, a Python dict embedded as an association
list with unique keys in all states the class produces. -/
abbrev Registry := List (String × TaskRecord)

/-- Dict lookup `d.get(k)` (and the membership test `k in d`): the first
binding of the key, `none` when absent. -/
def lookup (k : String) : Registry → Option TaskRecord
  | [] => none
  | e :: rest => if e.1 = k then some e.2 else lookup k rest

/-- Dict assignment `d[k] = v`: replaces the binding in place when the key is
present, otherwise appends a new binding. -/
def setEntry (k : String) (v : TaskRecord) : Registry → Registry
  | [] => [(k, v)]
  | e :: rest => if e.1 = k then (k, v) :: rest else e :: setEntry k v rest

/-- Dict deletion `d.pop(k, None)`: removes every binding of the key (a dict
has at most one). -/
def eraseKey (k : String) (l : Registry) : Registry :=
  l.filter (fun e => e.1 ≠ k)

/-- Number of bindings of a key in the registry. -/
def countKey (k : String) (l : Registry) : Nat :=
  (l.filter (fun e => e.1 = k)).length

/-- Embeds `MCPCHelper.start_task` (helper.py:34-67).  The wrapped worker is
launched on a fresh thread, abstracted here to the identity `thread` of that
new thread; `now` stands for `time.time()`.  The source then executes
`self.background_tasks[task_id] = ...` with a brand-new dict whose keys are
exactly `thread`, `start_time` and `status="running"` (so no `is_running`
key), overwriting any existing record. -/
def start_task (task_id : String) (thread : Nat) (now : Nat) (st : Registry) : Registry :=
  setEntry task_id
    { thread := some thread, start_time := now, status := "running", is_running := none } st

/-- Embeds `MCPCHelper.check_task` (helper.py:69-78).  The source fetches the
stored dict by reference (`self.background_tasks.get(task_id, {})`); when the
dict is non-empty and holds a truthy `thread`, it assigns
`task_info["is_running"] = thread.is_alive()` into that very dict — hence the
registry is updated with the augmented record, and the same augmented record is
returned.  An unknown id returns the empty dict, modelled as `none`. -/
def check_task (alive : Nat → Bool) (task_id : String) (st : Registry) :
    Registry × Option TaskRecord :=
  match lookup task_id st with
  | none => (st, none)
  | some r =>
    match r.thread with
    | some t =>
      let r1 := { r with is_running := some (alive t) }
      (setEntry task_id r1 st, some r1)
    | none => (st, some r)

/-- Embeds `MCPCHelper.stop_task` (helper.py:80-85): when the id is present the
stored record's `status` field is set to `"stopping"` in place and `True` is
returned; otherwise the registry is untouched and `False` is returned. -/
def stop_task (task_id : String) (st : Registry) : Registry × Bool :=
  match lookup task_id st with
  | some r => (setEntry task_id { r with status := "stopping" } st, true)
  | none => (st, false)

/-- Embeds `MCPCHelper.cleanup_task` (helper.py:87-91): pops the record when
the id is present, otherwise does nothing; never an error either way. -/
def cleanup_task (task_id : String) (st : Registry) : Registry :=
  if (lookup task_id st).isSome then eraseKey task_id st else st

/-- Modelled from the spec: the `MCPCMessage` class lives in the package
`__init__` module, which is not under src/.  Spec §3 and §6 give its shape —
exactly the five fields `session_id`, `task_id`, `tool_name`, `result`
(arbitrary payload, may be absent) and `status`, and no others.  The payload
type is a parameter since any serializable value is accepted. -/
structure MCPCMessage (α : Type) where
  session_id : String
  task_id : String
  tool_name : String
  result : Option α
  status : String
deriving Repr, DecidableEq

/-- Embeds `MCPCHelper.create_message` (helper.py:93-108): a pure constructor
call; the method reads and writes no helper state, so the registry component
passes through unchanged. -/
def create_message {α : Type} (st : Registry) (tool_name session_id task_id : String)
    (result : Option α) (status : String) : Registry × MCPCMessage α :=
  (st, { session_id := session_id, task_id := task_id, tool_name := tool_name,
         result := result, status := status })

/-- The JSON-RPC envelope built by `send_direct` before serialization: a
response-shaped container with the fixed correlation id `MCPC_CALLBACK`,
`jsonrpc = "2.0"`, and a result wrapping the message text with
`isError = false`. -/
structure JSONRPCEnvelope where
  jsonrpc : String
  id : String
  text : String
  isError : Bool
deriving Repr, DecidableEq

/-- Envelope construction in `send_direct` (helper.py:113-121). -/
def make_envelope (message : String) : JSONRPCEnvelope :=
  { jsonrpc := "2.0", id := "MCPC_CALLBACK", text := message, isError := false }

/-- The state of the shared stdout transport: the lines written so far and the
number of flushes performed. -/
structure Stdout where
  buf : List String
  flushes : Nat
deriving Repr, DecidableEq

/-- Embeds `MCPCHelper.send_direct` (helper.py:110-136).  The body is one
`try` block: build the envelope, serialize it (`model_dump_json`, an external
library call that may raise — abstracted as the fallible `serialize`
parameter), write the serialized line plus a newline to stdout (`writeOk`
models whether the write raises), flush (`flushOk` likewise), and return
`True`; any exception anywhere in the block is caught, logged, and turned into
the return value `False` — nothing propagates. -/
def send_direct (serialize : JSONRPCEnvelope → Except String String)
    (writeOk flushOk : Bool) (message : String) (out : Stdout) : Stdout × Bool :=
  match serialize (make_envelope message) with
  | Except.error _ => (out, false)
  | Except.ok serialized =>
    if writeOk then
      let out1 : Stdout := { out with buf := out.buf ++ [serialized ++ "\n"] }
      if flushOk then ({ out1 with flushes := out1.flushes + 1 }, true)
      else (out1, false)
    else (out, false)

/-- The registry states reachable from a fresh helper (`background_tasks`
starts empty) through the public operations, with arbitrary arguments and an
arbitrary liveness oracle at each `check_task` call. -/
inductive Reachable : Registry → Prop where
  | empty : Reachable []
  | step_start (task_id : String) (thread now : Nat) {st : Registry} :
      Reachable st → Reachable (start_task task_id thread now st)
  | step_check (alive : Nat → Bool) (task_id : String) {st : Registry} :
      Reachable st → Reachable (check_task alive task_id st).1
  | step_stop (task_id : String) {st : Registry} :
      Reachable st → Reachable (stop_task task_id st).1
  | step_cleanup (task_id : String) {st : Registry} :
      Reachable st → Reachable (cleanup_task task_id st)

/-- A key that looks up to a value is bound to it somewhere in the list. -/
theorem lookup_mem {k : String} {v : TaskRecord} {l : Registry}
    (h : lookup k l = some v) : (k, v) ∈ l := by
  induction l with
  | nil => simp [lookup] at h
  | cons e rest ih =>
    rw [lookup] at h
    by_cases he : e.1 = k
    · rw [if_pos he] at h
      injection h with h
      subst h; subst he
      exact List.mem_cons_self _ _
    · rw [if_neg he] at h
      exact List.mem_cons_of_mem _ (ih h)

/-- Assignment makes the key look up to the new value. -/
theorem lookup_setEntry_self (k : String) (v : TaskRecord) (l : Registry) :
    lookup k (setEntry k v l) = some v := by
  induction l with
  | nil => simp [setEntry, lookup]
  | cons e rest ih =>
    by_cases he : e.1 = k
    · simp [setEntry, he, lookup]
    · simp [setEntry, he, lookup, ih]

/-- Assignment leaves every other key's lookup unchanged. -/
theorem lookup_setEntry_ne {k1 k : String} (v : TaskRecord) (l : Registry)
    (hne : k1 ≠ k) : lookup k1 (setEntry k v l) = lookup k1 l := by
  induction l with
  | nil => simp [setEntry, lookup, Ne.symm hne]
  | cons e rest ih =>
    by_cases he : e.1 = k
    · have hk1 : ¬ (k = k1) := Ne.symm hne
      have he1 : ¬ (e.1 = k1) := by rw [he]; exact hk1
      simp [setEntry, he, lookup, hk1, he1]
    · simp [setEntry, he, lookup, ih]

/-- Every binding after an assignment is the new one or an old one. -/
theorem mem_setEntry {p : String × TaskRecord} {k : String} {v : TaskRecord}
    {l : Registry} (h : p ∈ setEntry k v l) : p = (k, v) ∨ p ∈ l := by
  induction l with
  | nil => simpa [setEntry] using h
  | cons e rest ih =>
    by_cases he : e.1 = k
    · rw [setEntry, if_pos he] at h
      rcases List.mem_cons.1 h with h1 | h1
      · exact Or.inl h1
      · exact Or.inr (List.mem_cons_of_mem _ h1)
    · rw [setEntry, if_neg he] at h
      rcases List.mem_cons.1 h with h1 | h1
      · exact Or.inr (h1 ▸ List.mem_cons_self _ _)
      · rcases ih h1 with h2 | h2
        · exact Or.inl h2
        · exact Or.inr (List.mem_cons_of_mem _ h2)

/-- Deletion drops a binding of the deleted key. -/
theorem eraseKey_cons_of_eq {e : String × TaskRecord} {k : String} (rest : Registry)
    (he : e.1 = k) : eraseKey k (e :: rest) = eraseKey k rest := by
  simp [eraseKey, List.filter_cons, he]

/-- Deletion keeps a binding of any other key. -/
theorem eraseKey_cons_of_ne {e : String × TaskRecord} {k : String} (rest : Registry)
    (he : ¬ e.1 = k) : eraseKey k (e :: rest) = e :: eraseKey k rest := by
  simp [eraseKey, List.filter_cons, he]

/-- Deletion removes the key's binding. -/
theorem lookup_eraseKey_self (k : String) (l : Registry) :
    lookup k (eraseKey k l) = none := by
  induction l with
  | nil => rfl
  | cons e rest ih =>
    by_cases he : e.1 = k
    · rw [eraseKey_cons_of_eq rest he]; exact ih
    · rw [eraseKey_cons_of_ne rest he, lookup, if_neg he]; exact ih

/-- Deletion leaves every other key's lookup unchanged. -/
theorem lookup_eraseKey_ne {k1 k : String} (l : Registry) (hne : k1 ≠ k) :
    lookup k1 (eraseKey k l) = lookup k1 l := by
  induction l with
  | nil => rfl
  | cons e rest ih =>
    by_cases he : e.1 = k
    · have he1 : ¬ (e.1 = k1) := fun h => hne (h.symm.trans he)
      rw [eraseKey_cons_of_eq rest he, ih, lookup, if_neg he1]
    · rw [eraseKey_cons_of_ne rest he, lookup, lookup, ih]

/-- After `cleanup_task` the task id is gone (or was never there). -/
theorem lookup_cleanup_self (task_id : String) (st : Registry) :
    lookup task_id (cleanup_task task_id st) = none := by
  unfold cleanup_task
  cases h : lookup task_id st with
  | none => simp [h]
  | some r => simp [h, lookup_eraseKey_self]

/-- The registry has no duplicate task ids. -/
def nodupKeys (l : Registry) : Prop := (l.map Prod.fst).Nodup

/-- Keys after an assignment are the assigned key or old keys. -/
theorem mem_keys_setEntry {a k : String} {v : TaskRecord} {l : Registry}
    (h : a ∈ (setEntry k v l).map Prod.fst) : a = k ∨ a ∈ l.map Prod.fst := by
  simp only [List.mem_map] at h ⊢
  obtain ⟨p, hp, rfl⟩ := h
  rcases mem_setEntry hp with h1 | h1
  · exact Or.inl (by rw [h1])
  · exact Or.inr ⟨p, h1, rfl⟩

/-- Assignment preserves uniqueness of keys. -/
theorem nodupKeys_setEntry (k : String) (v : TaskRecord) {l : Registry}
    (h : nodupKeys l) : nodupKeys (setEntry k v l) := by
  induction l with
  | nil => simp [setEntry, nodupKeys]
  | cons e rest ih =>
    rw [nodupKeys, List.map_cons, List.nodup_cons] at h
    obtain ⟨hne, hrest⟩ := h
    by_cases he : e.1 = k
    · rw [setEntry, if_pos he]
      rw [nodupKeys, List.map_cons, List.nodup_cons]
      exact ⟨he ▸ hne, hrest⟩
    · rw [setEntry, if_neg he]
      rw [nodupKeys, List.map_cons, List.nodup_cons]
      refine ⟨fun hmem => ?_, ih hrest⟩
      rcases mem_keys_setEntry hmem with h1 | h1
      · exact he h1
      · exact hne h1

/-- Deletion preserves uniqueness of keys. -/
theorem nodupKeys_eraseKey (k : String) {l : Registry} (h : nodupKeys l) :
    nodupKeys (eraseKey k l) := by
  have hs : List.Sublist (eraseKey k l) l := List.filter_sublist l
  exact List.Nodup.sublist (List.Sublist.map Prod.fst hs) h

/-- A key bound nowhere occurs zero times. -/
theorem countKey_eq_zero {k : String} {l : Registry}
    (h : k ∉ l.map Prod.fst) : countKey k l = 0 := by
  induction l with
  | nil => rfl
  | cons e rest ih =>
    simp only [List.map_cons, List.mem_cons, not_or] at h
    obtain ⟨h1, h2⟩ := h
    have h1e : e.1 ≠ k := fun hh => h1 hh.symm
    simpa [countKey, List.filter_cons, h1e] using ih h2

/-- On a registry with unique keys, assignment leaves exactly one binding of
the assigned key. -/
theorem countKey_setEntry (k : String) (v : TaskRecord) {l : Registry}
    (h : nodupKeys l) : countKey k (setEntry k v l) = 1 := by
  induction l with
  | nil => simp [setEntry, countKey, List.filter_cons]
  | cons e rest ih =>
    rw [nodupKeys, List.map_cons, List.nodup_cons] at h
    obtain ⟨hne, hrest⟩ := h
    by_cases he : e.1 = k
    · have h0 : countKey k rest = 0 := countKey_eq_zero (he ▸ hne)
      simpa [setEntry, he, countKey, List.filter_cons] using h0
    · simpa [setEntry, he, countKey, List.filter_cons] using ih hrest

/-- Unknown id: `check_task` returns the empty result and leaves the registry
alone. -/
theorem check_task_eq_none1 (alive : Nat → Bool) (task_id : String) (st : Registry)
    (hl : lookup task_id st = none) : check_task alive task_id st = (st, none) := by
  unfold check_task
  rw [hl]

/-- Known id whose record has a null handle: `check_task` returns the record
as stored, registry untouched (unreachable in practice, see `registryOk`). -/
theorem check_task_eq_none2 (alive : Nat → Bool) (task_id : String) (st : Registry)
    (r : TaskRecord) (hl : lookup task_id st = some r) (ht : r.thread = none) :
    check_task alive task_id st = (st, some r) := by
  unfold check_task
  rw [hl]
  dsimp only
  rw [ht]

/-- Known id with a handle: `check_task` polls the handle's liveness, writes
the result into the stored record's `is_running` key, and returns that same
augmented record. -/
theorem check_task_eq_some (alive : Nat → Bool) (task_id : String) (st : Registry)
    (r : TaskRecord) (t : Nat) (hl : lookup task_id st = some r) (ht : r.thread = some t) :
    check_task alive task_id st =
      (setEntry task_id { r with is_running := some (alive t) } st,
       some { r with is_running := some (alive t) }) := by
  unfold check_task
  rw [hl]
  dsimp only
  rw [ht]

/-- Known id: `stop_task` rewrites the record's status to `stopping` in place
and reports success. -/
theorem stop_task_eq_some (task_id : String) (st : Registry) (r : TaskRecord)
    (hl : lookup task_id st = some r) :
    stop_task task_id st = (setEntry task_id { r with status := "stopping" } st, true) := by
  unfold stop_task
  rw [hl]

/-- Unknown id: `stop_task` reports failure and changes nothing. -/
theorem stop_task_eq_none (task_id : String) (st : Registry)
    (hl : lookup task_id st = none) : stop_task task_id st = (st, false) := by
  unfold stop_task
  rw [hl]

/-- The record-shape invariant of spec §3: a present task id has a non-null
execution handle, and its status is `running` or `stopping`. -/
def registryOk (l : Registry) : Prop :=
  ∀ p ∈ l, p.2.thread ≠ none ∧ (p.2.status = "running" ∨ p.2.status = "stopping")

theorem registryOk_start (task_id : String) (thread now : Nat) {st : Registry}
    (h : registryOk st) : registryOk (start_task task_id thread now st) := by
  intro p hp
  rcases mem_setEntry hp with h1 | h1
  · rw [h1]; exact ⟨by simp, Or.inl rfl⟩
  · exact h p h1

theorem registryOk_check (alive : Nat → Bool) (task_id : String) {st : Registry}
    (h : registryOk st) : registryOk (check_task alive task_id st).1 := by
  cases hl : lookup task_id st with
  | none => rw [check_task_eq_none1 alive task_id st hl]; exact h
  | some r =>
    cases ht : r.thread with
    | none => rw [check_task_eq_none2 alive task_id st r hl ht]; exact h
    | some t =>
      rw [check_task_eq_some alive task_id st r t hl ht]
      intro p hp
      rcases mem_setEntry hp with h1 | h1
      · rw [h1]
        have hr := h (task_id, r) (lookup_mem hl)
        exact ⟨hr.1, hr.2⟩
      · exact h p h1

theorem registryOk_stop (task_id : String) {st : Registry}
    (h : registryOk st) : registryOk (stop_task task_id st).1 := by
  cases hl : lookup task_id st with
  | none => rw [stop_task_eq_none task_id st hl]; exact h
  | some r =>
    rw [stop_task_eq_some task_id st r hl]
    intro p hp
    rcases mem_setEntry hp with h1 | h1
    · rw [h1]
      have hr := h (task_id, r) (lookup_mem hl)
      exact ⟨hr.1, Or.inr rfl⟩
    · exact h p h1

theorem registryOk_cleanup (task_id : String) {st : Registry}
    (h : registryOk st) : registryOk (cleanup_task task_id st) := by
  unfold cleanup_task
  by_cases hl : (lookup task_id st).isSome
  · simp only [hl, if_true]
    intro p hp
    exact h p (List.mem_of_mem_filter hp)
  · simpa [hl] using h

/-- Every reachable registry satisfies the record-shape invariant. -/
theorem reachable_registryOk {st : Registry} (h : Reachable st) : registryOk st := by
  induction h with
  | empty => intro p hp; simp at hp
  | step_start task_id thread now _ ih => exact registryOk_start task_id thread now ih
  | step_check alive task_id _ ih => exact registryOk_check alive task_id ih
  | step_stop task_id _ ih => exact registryOk_stop task_id ih
  | step_cleanup task_id _ ih => exact registryOk_cleanup task_id ih

theorem nodupKeys_check (alive : Nat → Bool) (task_id : String) {st : Registry}
    (h : nodupKeys st) : nodupKeys (check_task alive task_id st).1 := by
  cases hl : lookup task_id st with
  | none => rw [check_task_eq_none1 alive task_id st hl]; exact h
  | some r =>
    cases ht : r.thread with
    | none => rw [check_task_eq_none2 alive task_id st r hl ht]; exact h
    | some t =>
      rw [check_task_eq_some alive task_id st r t hl ht]
      exact nodupKeys_setEntry task_id _ h

theorem nodupKeys_stop (task_id : String) {st : Registry}
    (h : nodupKeys st) : nodupKeys (stop_task task_id st).1 := by
  cases hl : lookup task_id st with
  | none => rw [stop_task_eq_none task_id st hl]; exact h
  | some r =>
    rw [stop_task_eq_some task_id st r hl]
    exact nodupKeys_setEntry task_id _ h

theorem nodupKeys_cleanup (task_id : String) {st : Registry}
    (h : nodupKeys st) : nodupKeys (cleanup_task task_id st) := by
  unfold cleanup_task
  by_cases hl : (lookup task_id st).isSome
  · simp only [hl, if_true]
    exact nodupKeys_eraseKey task_id h
  · simpa [hl] using h

/-- Every reachable registry has unique task ids (dict semantics preserved). -/
theorem reachable_nodupKeys {st : Registry} (h : Reachable st) : nodupKeys st := by
  induction h with
  | empty => simp [nodupKeys]
  | step_start task_id thread now _ ih => exact nodupKeys_setEntry task_id _ ih
  | step_check alive task_id _ ih => exact nodupKeys_check alive task_id ih
  | step_stop task_id _ ih => exact nodupKeys_stop task_id ih
  | step_cleanup task_id _ ih => exact nodupKeys_cleanup task_id ih

/-- When the task is absent, `cleanup_task` changes nothing. -/
theorem cleanup_task_of_absent (task_id : String) (st : Registry)
    (h : lookup task_id st = none) : cleanup_task task_id st = st := by
  unfold cleanup_task
  simp [h]

/-- Claim C1, as stated, is false: `check_task` does not return a snapshot
leaving the stored record unchanged.  At the concrete single-task registry
below, with the thread alive, the call writes `is_running = true` into the
stored record, so the registry after the call differs from the registry
before it. -/
theorem c1_counterexample :
    (check_task (fun _ => true) "t1"
        [("t1", { thread := some 7, start_time := 3, status := "running",
                  is_running := none })]).1
      ≠ [("t1", { thread := some 7, start_time := 3, status := "running",
                  is_running := none })] := by
  decide

/-- Claim C1 amended: for a present task id with an execution handle,
`check_task` recomputes `is_running` by polling the handle's liveness at call
time (any previously stored flag is discarded, so the flag is not cached),
returns the record augmented with that fresh flag, and writes the same
augmented record back into the registry in place — the return is the stored
record itself, not an independent snapshot, and `thread`, `start_time` and
`status` are unchanged. -/
theorem c1_check_task_in_place (alive : Nat → Bool) (task_id : String)
    (st : Registry) (r : TaskRecord) (t : Nat)
    (hl : lookup task_id st = some r) (ht : r.thread = some t) :
    check_task alive task_id st =
      (setEntry task_id
        { thread := r.thread, start_time := r.start_time, status := r.status,
          is_running := some (alive t) } st,
       some { thread := r.thread, start_time := r.start_time, status := r.status,
              is_running := some (alive t) })
    ∧ lookup task_id (check_task alive task_id st).1 =
        some { thread := r.thread, start_time := r.start_time, status := r.status,
               is_running := some (alive t) } := by
  have heq := check_task_eq_some alive task_id st r t hl ht
  refine ⟨heq, ?_⟩
  rw [heq]
  exact lookup_setEntry_self _ _ _

/-- Claim C1 amended, witnessed at a one-task registry with a live thread and
a stale cached flag: the call overwrites the stale `is_running = false` with
the fresh `true` both in the returned record and in the stored one. -/
theorem c1_witness :
    check_task (fun _ => true) "t1"
        [("t1", { thread := some 7, start_time := 3, status := "running",
                  is_running := some false })] =
      ([("t1", { thread := some 7, start_time := 3, status := "running",
                 is_running := some true })],
       some { thread := some 7, start_time := 3, status := "running",
              is_running := some true })
    ∧ lookup "t1" (check_task (fun _ => true) "t1"
        [("t1", { thread := some 7, start_time := 3, status := "running",
                  is_running := some false })]).1 =
        some { thread := some 7, start_time := 3, status := "running",
               is_running := some true } :=
  c1_check_task_in_place (fun _ => true) "t1"
    [("t1", { thread := some 7, start_time := 3, status := "running",
              is_running := some false })]
    { thread := some 7, start_time := 3, status := "running",
      is_running := some false } 7 (by decide) (by decide)

/-- Claim C2: in every registry state reachable through the public operations,
every present task id maps to a record with a non-null execution handle, and
its status is `running` or `stopping` — the only two values ever written,
by `start_task` and `stop_task` respectively; no operation transitions the
status on work completion (the liveness oracle at each `check_task` step is
arbitrary, so the invariant holds whether or not the work has finished). -/
theorem c2_registry_invariant (st : Registry) (h : Reachable st)
    (task_id : String) (r : TaskRecord) (hl : lookup task_id st = some r) :
    r.thread ≠ none ∧ (r.status = "running" ∨ r.status = "stopping") :=
  reachable_registryOk h (task_id, r) (lookup_mem hl)

/-- Claim C2, witnessed on the reachable state obtained by starting task `t1`
and then requesting its stop. -/
theorem c2_witness :
    ({ thread := some 7, start_time := 3, status := "stopping",
       is_running := none } : TaskRecord).thread ≠ none
    ∧ (({ thread := some 7, start_time := 3, status := "stopping",
          is_running := none } : TaskRecord).status = "running"
       ∨ ({ thread := some 7, start_time := 3, status := "stopping",
            is_running := none } : TaskRecord).status = "stopping") :=
  c2_registry_invariant (stop_task "t1" (start_task "t1" 7 3 [])).1
    (Reachable.step_stop "t1" (Reachable.step_start "t1" 7 3 Reachable.empty))
    "t1"
    { thread := some 7, start_time := 3, status := "stopping", is_running := none }
    (by decide)

/-- Claim C3: for a task id absent from the registry (in particular one never
passed to `start_task`), `check_task` returns the empty result and `stop_task`
returns `false`, both leaving the registry unchanged; both are total
functions, so neither raises. -/
theorem c3_unknown_task (alive : Nat → Bool) (task_id : String) (st : Registry)
    (h : lookup task_id st = none) :
    check_task alive task_id st = (st, none) ∧ stop_task task_id st = (st, false) :=
  ⟨check_task_eq_none1 alive task_id st h, stop_task_eq_none task_id st h⟩

/-- Claim C3, witnessed on an unknown id over a non-empty registry. -/
theorem c3_witness :
    check_task (fun _ => false) "t9"
        [("t1", { thread := some 7, start_time := 3, status := "running",
                  is_running := none })] =
      ([("t1", { thread := some 7, start_time := 3, status := "running",
                 is_running := none })], none)
    ∧ stop_task "t9"
        [("t1", { thread := some 7, start_time := 3, status := "running",
                  is_running := none })] =
      ([("t1", { thread := some 7, start_time := 3, status := "running",
                 is_running := none })], false) :=
  c3_unknown_task (fun _ => false) "t9"
    [("t1", { thread := some 7, start_time := 3, status := "running",
              is_running := none })] (by decide)

/-- Claim C4: `stop_task` returns exactly whether the task id was found; when
found it rewrites that record's status to `stopping` in place, and when not
found it returns `false` with the registry unchanged. -/
theorem c4_stop_task_spec (task_id : String) (st : Registry) :
    (stop_task task_id st).2 = (lookup task_id st).isSome
    ∧ (∀ r, lookup task_id st = some r →
        (stop_task task_id st).1 =
          setEntry task_id { r with status := "stopping" } st
        ∧ lookup task_id (stop_task task_id st).1 =
            some { r with status := "stopping" })
    ∧ (lookup task_id st = none → stop_task task_id st = (st, false)) := by
  cases hl : lookup task_id st with
  | none =>
    rw [stop_task_eq_none task_id st hl]
    exact ⟨rfl, fun r hr => by simp at hr, fun _ => rfl⟩
  | some r =>
    rw [stop_task_eq_some task_id st r hl]
    refine ⟨rfl, fun r1 hr1 => ?_, fun hn => by simp at hn⟩
    injection hr1 with hr1
    subst hr1
    exact ⟨rfl, lookup_setEntry_self _ _ _⟩

/-- Claim C4, witnessed on a present task: the status becomes `stopping` and
the call reports success; the same theorem also covers the miss case. -/
theorem c4_witness :
    (stop_task "t1"
        [("t1", { thread := some 7, start_time := 3, status := "running",
                  is_running := none })]).1 =
      setEntry "t1"
        { thread := some 7, start_time := 3, status := "stopping",
          is_running := none }
        [("t1", { thread := some 7, start_time := 3, status := "running",
                  is_running := none })]
    ∧ lookup "t1" (stop_task "t1"
        [("t1", { thread := some 7, start_time := 3, status := "running",
                  is_running := none })]).1 =
        some { thread := some 7, start_time := 3, status := "stopping",
               is_running := none } :=
  (c4_stop_task_spec "t1"
    [("t1", { thread := some 7, start_time := 3, status := "running",
              is_running := none })]).2.1
    { thread := some 7, start_time := 3, status := "running", is_running := none }
    (by decide)

/-- Claim C5: `cleanup_task` removes the record (afterwards the id is absent),
it is idempotent (`cleanup_task` of a cleaned registry is that registry), and
on an unknown id it is a no-op; it is a total function, so it never raises. -/
theorem c5_cleanup_task_spec (task_id : String) (st : Registry) :
    lookup task_id (cleanup_task task_id st) = none
    ∧ cleanup_task task_id (cleanup_task task_id st) = cleanup_task task_id st
    ∧ (lookup task_id st = none → cleanup_task task_id st = st) :=
  ⟨lookup_cleanup_self task_id st,
   cleanup_task_of_absent task_id _ (lookup_cleanup_self task_id st),
   cleanup_task_of_absent task_id st⟩

/-- Claim C5, witnessed on a one-task registry: cleanup removes the record,
a second cleanup is a no-op, and cleanup of an unknown id is a no-op. -/
theorem c5_witness :
    lookup "t1" (cleanup_task "t1"
        [("t1", { thread := some 7, start_time := 3, status := "running",
                  is_running := none })]) = none
    ∧ cleanup_task "t1" (cleanup_task "t1"
        [("t1", { thread := some 7, start_time := 3, status := "running",
                  is_running := none })]) =
        cleanup_task "t1"
          [("t1", { thread := some 7, start_time := 3, status := "running",
                    is_running := none })]
    ∧ cleanup_task "t9" [] = [] :=
  ⟨(c5_cleanup_task_spec "t1"
      [("t1", { thread := some 7, start_time := 3, status := "running",
                is_running := none })]).1,
   (c5_cleanup_task_spec "t1"
      [("t1", { thread := some 7, start_time := 3, status := "running",
                is_running := none })]).2.1,
   (c5_cleanup_task_spec "t9" []).2.2 (by decide)⟩

/-- Claim C6: starting the same task id twice from any reachable registry
leaves exactly one registry entry for that id, and that entry holds the
second call's execution handle and timestamp with status `running` — the
first call's handle is simply no longer referenced by the registry
(`start_task` takes no liveness oracle and performs no join or cancel on the
old handle). -/
theorem c6_start_overwrite (st : Registry) (h : Reachable st) (task_id : String)
    (th1 n1 th2 n2 : Nat) :
    countKey task_id (start_task task_id th2 n2 (start_task task_id th1 n1 st)) = 1
    ∧ lookup task_id (start_task task_id th2 n2 (start_task task_id th1 n1 st)) =
        some { thread := some th2, start_time := n2, status := "running",
               is_running := none } := by
  have hn : nodupKeys st := reachable_nodupKeys h
  have hn1 : nodupKeys (start_task task_id th1 n1 st) := nodupKeys_setEntry task_id _ hn
  exact ⟨countKey_setEntry task_id _ hn1, lookup_setEntry_self _ _ _⟩

/-- Claim C6, witnessed from the empty registry: two starts of `t1` leave one
entry carrying the second handle. -/
theorem c6_witness :
    countKey "t1" (start_task "t1" 8 4 (start_task "t1" 7 3 [])) = 1
    ∧ lookup "t1" (start_task "t1" 8 4 (start_task "t1" 7 3 [])) =
        some { thread := some 8, start_time := 4, status := "running",
               is_running := none } :=
  c6_start_overwrite [] Reachable.empty "t1" 7 3 8 4

/-- Claim C7: `create_message` is pure construction — the registry passes
through unchanged — and the resulting message holds exactly the five fields
`session_id`, `task_id`, `tool_name`, `result`, `status` with the argument
values (the `MCPCMessage` structure has no other fields). -/
theorem c7_create_message {α : Type} (st : Registry)
    (tool_name session_id task_id : String) (result : Option α) (status : String) :
    create_message st tool_name session_id task_id result status =
      (st, { session_id := session_id, task_id := task_id, tool_name := tool_name,
             result := result, status := status }) := rfl

/-- Claim C8: `send_direct` returns `false` on a serialization error and on a
write or flush failure — it is a total function, so the exception never
propagates to the caller — and on success it appends the serialized envelope
with a trailing newline to the transport, flushes once, and returns `true`. -/
theorem c8_send_direct_spec (serialize : JSONRPCEnvelope → Except String String)
    (writeOk flushOk : Bool) (message : String) (out : Stdout) :
    (∀ e, serialize (make_envelope message) = Except.error e →
        send_direct serialize writeOk flushOk message out = (out, false))
    ∧ (writeOk = false →
        (send_direct serialize writeOk flushOk message out).2 = false)
    ∧ (flushOk = false →
        (send_direct serialize writeOk flushOk message out).2 = false)
    ∧ (∀ s, serialize (make_envelope message) = Except.ok s →
        writeOk = true → flushOk = true →
        send_direct serialize writeOk flushOk message out =
          ({ buf := out.buf ++ [s ++ "\n"], flushes := out.flushes + 1 }, true)) := by
  refine ⟨fun e he => ?_, fun hw => ?_, fun hf => ?_, fun s hs hw hf => ?_⟩
  · unfold send_direct
    rw [he]
  · unfold send_direct
    cases hs : serialize (make_envelope message) with
    | error e => rfl
    | ok s => simp [hw]
  · unfold send_direct
    cases hs : serialize (make_envelope message) with
    | error e => rfl
    | ok s => cases writeOk <;> simp [hf]
  · unfold send_direct
    rw [hs, hw, hf]
    rfl

/-- Claim C8, witnessed with a serializer that succeeds with the envelope's
text and a transport whose write and flush succeed: the line lands on the
transport newline-terminated, one flush happens, and the call returns
`true`. -/
theorem c8_witness :
    send_direct (fun env => Except.ok env.text) true true "hello"
        { buf := [], flushes := 0 } =
      ({ buf := [] ++ ["hello" ++ "\n"], flushes := 0 + 1 }, true) :=
  (c8_send_direct_spec (fun env => Except.ok env.text) true true "hello"
      { buf := [], flushes := 0 }).2.2.2 "hello" rfl rfl rfl

/-- Claim C10: on a present task id, `stop_task` changes only the `status`
field of that record — `thread`, `start_time` and the `is_running` key keep
their old values — and the binding of every other task id is untouched. -/
theorem c10_stop_task_frame (task_id : String) (st : Registry) (r : TaskRecord)
    (hl : lookup task_id st = some r) :
    lookup task_id (stop_task task_id st).1 =
      some { thread := r.thread, start_time := r.start_time, status := "stopping",
             is_running := r.is_running }
    ∧ (∀ k, k ≠ task_id → lookup k (stop_task task_id st).1 = lookup k st) := by
  rw [stop_task_eq_some task_id st r hl]
  exact ⟨lookup_setEntry_self _ _ _, fun k hk => lookup_setEntry_ne _ _ hk⟩

/-- Claim C10, witnessed on a two-task registry: stopping `t1` preserves its
thread, start time and cached flag and leaves `t2` untouched. -/
theorem c10_witness :
    lookup "t1" (stop_task "t1"
        [("t1", { thread := some 7, start_time := 3, status := "running",
                  is_running := some true }),
         ("t2", { thread := some 9, start_time := 4, status := "running",
                  is_running := none })]).1 =
      some { thread := some 7, start_time := 3, status := "stopping",
             is_running := some true }
    ∧ (∀ k, k ≠ "t1" → lookup k (stop_task "t1"
        [("t1", { thread := some 7, start_time := 3, status := "running",
                  is_running := some true }),
         ("t2", { thread := some 9, start_time := 4, status := "running",
                  is_running := none })]).1 =
        lookup k
          [("t1", { thread := some 7, start_time := 3, status := "running",
                    is_running := some true }),
           ("t2", { thread := some 9, start_time := 4, status := "running",
                    is_running := none })]) :=
  c10_stop_task_frame "t1"
    [("t1", { thread := some 7, start_time := 3, status := "running",
              is_running := some true }),
     ("t2", { thread := some 9, start_time := 4, status := "running",
              is_running := none })]
    { thread := some 7, start_time := 3, status := "running", is_running := some true }
    (by decide)

end MCPC
